import Mathlib

/-!
Verification of the file-converter repository's conversion layer.

The Python sources are shallowly embedded: path arithmetic follows
posixpath (splitext, basename, dirname, join), the filesystem is a pair
of lists (regular files, directories) threaded through every stateful
operation, Python exceptions are a small class hierarchy mirroring the
builtins the code raises, and each converter body is an explicit
state-passing function returning an Except value paired with the final
filesystem.  The decorator ErrorHandler.handle_exception is the function
turning a body's outcome into the (success, payload) pair the public
API returns.  File contents and the pixel/render work of the external
libraries (PIL, markdown, weasyprint, pdf2docx) are exogenous: a library
call is modelled as the filesystem write it performs, and the one
library call whose failure the claims exercise (weasyprint's write_pdf)
is modelled by an explicit render_ok parameter.  Two places are modelled
below the library boundary because the claims depend on them: the float
ratio arithmetic of resize_image is bit-exact binary64, and the second
pipeline step of convert_md_to_pdf is the TypeError its bogus
use_custom_css keyword always raises at the call boundary.
-/

namespace FileConverter

/-! ### String helpers mirroring str.lower, str.lstrip and posixpath -/

/-- Last index of a character in a list, mirroring str.rfind (None when absent). -/
def lastIdxOf (cs : List Char) (c : Char) : Option Nat :=
  ((cs.enum.filter (fun p => p.2 = c)).map Prod.fst).getLast?

/-- str.rfind as Python returns it: the index, or -1 when absent. -/
def rfind (s : String) (c : Char) : Int :=
  match lastIdxOf s.toList c with
  | none => -1
  | some i => i

/-- str.lower for the ASCII names the code handles, written over the
character list so it reduces definitionally. -/
def strLower (s : String) : String := ⟨s.toList.map Char.toLower⟩

/-- str.join with a separator, as ", ".join(list) uses it. -/
def joinWith (sep : String) : List String → String
  | [] => ""
  | [x] => x
  | x :: xs => x ++ sep ++ joinWith sep xs

/-- str.lstrip with a single dot argument: drop leading dots. -/
def lstripDot (s : String) : String :=
  ⟨s.toList.dropWhile (fun c => c = '.')⟩

/-- str.rstrip with a slash argument: drop trailing slashes. -/
def rstripSlash (s : String) : String :=
  ⟨(s.toList.reverse.dropWhile (fun c => c = '/')).reverse⟩

/-- posixpath.basename: everything after the last slash. -/
def basename (p : String) : String :=
  match lastIdxOf p.toList '/' with
  | none => p
  | some i => ⟨p.toList.drop (i + 1)⟩

/-- posixpath.dirname: the prefix up to the last slash, with trailing
slashes stripped unless the prefix is all slashes. -/
def dirname (p : String) : String :=
  match lastIdxOf p.toList '/' with
  | none => ""
  | some i =>
    let head : List Char := p.toList.take (i + 1)
    if head ≠ [] ∧ head.any (fun c => c ≠ '/') then rstripSlash ⟨head⟩ else ⟨head⟩

/-- posixpath.splitext: split off the extension at the last dot of the base
name, unless every character of the base name before that dot is a dot. -/
def splitext (p : String) : String × String :=
  let cs := p.toList
  let sepIndex : Int := rfind p '/'
  let dotIndex : Int := rfind p '.'
  if dotIndex > sepIndex ∧
      (cs.enum.any (fun q => sepIndex < (q.1 : Int) ∧ (q.1 : Int) < dotIndex ∧ q.2 ≠ '.')) then
    (⟨cs.take dotIndex.toNat⟩, ⟨cs.drop dotIndex.toNat⟩)
  else
    (p, "")

/-- posixpath.join for the two-argument calls the code makes: an absolute
second component replaces the first, otherwise a slash is inserted unless
already present. -/
def pathJoin (a b : String) : String :=
  if b.toList.head? = some '/' then b
  else if a = "" then b
  else if a.toList.getLast? = some '/' then a ++ b
  else a ++ "/" ++ b

/-- Python truthiness of an optional string: None and the empty string are falsy. -/
def truthy : Option String → Bool
  | none => false
  | some s => s ≠ ""

/-- Python truthiness of an optional integer: None and 0 are falsy. -/
def truthyInt : Option Int → Bool
  | none => false
  | some n => n ≠ 0

/-! ### Binary64 arithmetic

Python floats are IEEE binary64 numbers.  The ratio arithmetic of
resize_image is modelled bit-exactly over integers: a finite double is a
mantissa-exponent pair m * 2^e, and every operation rounds to 53 bits of
mantissa with round-to-nearest, ties-to-even, exactly as the hardware
does in the normal range.  Subnormals and overflow are outside the sizes
an image can have and are not modelled. -/

/-- Bit length of a natural number, fuel-structured so the kernel reduces it. -/
def bitLenAux : ℕ → ℕ → ℕ
  | 0, _ => 0
  | fuel + 1, n => if n = 0 then 0 else bitLenAux fuel (n / 2) + 1

/-- Bit length: 0 for 0, and the unique l with 2^(l-1) <= n < 2^l otherwise. -/
def bitLen (n : ℕ) : ℕ := bitLenAux n n

/-- Round the quotient num/den (den positive) to the nearest integer,
ties to even. -/
def roundHalfEvenDiv (num den : ℤ) : ℤ :=
  let q := num / den
  let r := num % den
  if 2 * r < den then q
  else if den < 2 * r then q + 1
  else if q % 2 = 0 then q else q + 1

/-- The floor of log2 of the positive rational a/b, in integer arithmetic:
the bit lengths bracket it within one, and a single comparison settles it. -/
def floorLog2Div (a b : ℕ) : ℤ :=
  let e0 : ℤ := (bitLen a : ℤ) - (bitLen b : ℤ)
  if (b : ℤ) * 2 ^ (max e0 0).toNat ≤ (a : ℤ) * 2 ^ (max (-e0) 0).toNat then e0
  else e0 - 1

/-- The binary64 number nearest to the positive rational a/b: the 53-bit
mantissa (round to nearest, ties to even) paired with its exponent. -/
def roundPosDouble (a b : ℕ) : ℤ × ℤ :=
  let e2 := floorLog2Div a b
  let sh : ℤ := 52 - e2
  let num : ℤ := (a : ℤ) * 2 ^ (max sh 0).toNat
  let den : ℤ := (b : ℤ) * 2 ^ (max (-sh) 0).toNat
  (roundHalfEvenDiv num den, e2 - 52)

/-- Python float division of two machine integers: the correctly rounded
binary64 quotient (both operands convert to double exactly at the sizes an
image can have). -/
def fdivD (p q : ℤ) : ℤ × ℤ :=
  if p = 0 ∨ q = 0 then (0, 0)
  else
    let s : ℤ := if (0 < p ∧ 0 < q) ∨ (p < 0 ∧ q < 0) then 1 else -1
    let d := roundPosDouble p.natAbs q.natAbs
    (s * d.1, d.2)

/-- Python float multiplication of a machine integer by a double: the
correctly rounded binary64 product. -/
def fmulIntD (n : ℤ) (d : ℤ × ℤ) : ℤ × ℤ :=
  let prod := n * d.1
  if prod = 0 then (0, 0)
  else
    let s : ℤ := if 0 ≤ prod then 1 else -1
    let r := if 0 ≤ d.2 then roundPosDouble (prod.natAbs * 2 ^ d.2.toNat) 1
             else roundPosDouble prod.natAbs (2 ^ (-d.2).toNat)
    (s * r.1, r.2)

/-- Python min over two doubles: value comparison, first argument on a tie. -/
def minD (x y : ℤ × ℤ) : ℤ × ℤ :=
  let mn := min x.2 y.2
  if x.1 * 2 ^ (x.2 - mn).toNat ≤ y.1 * 2 ^ (y.2 - mn).toNat then x else y

/-- Python int() of a double: truncation toward zero. -/
def pyIntD (d : ℤ × ℤ) : ℤ :=
  if 0 ≤ d.2 then d.1 * 2 ^ d.2.toNat
  else d.1.tdiv (2 ^ (-d.2).toNat)

/-! ### The filesystem model

Regular files and directories by absolute or relative path; file contents
are not tracked (no claim depends on them). -/

structure FS where
  files : List String
  dirs : List String
deriving DecidableEq, Repr

/-- os.path.exists: true for files and directories. -/
def FS.pathExists (fs : FS) (p : String) : Bool :=
  fs.files.contains p || fs.dirs.contains p

/-- os.path.isfile: true for regular files only. -/
def FS.isfile (fs : FS) (p : String) : Bool :=
  fs.files.contains p

/-- A write creating (or overwriting) a regular file. -/
def FS.writeFile (fs : FS) (p : String) : FS :=
  if fs.files.contains p then fs else ⟨p :: fs.files, fs.dirs⟩

/-- os.remove / os.unlink on a regular file. -/
def FS.removeFile (fs : FS) (p : String) : FS :=
  ⟨fs.files.filter (fun q => q ≠ p), fs.dirs⟩

/-- os.makedirs(d, exist_ok=True) on a nonempty path: the directory appears. -/
def FS.addDir (fs : FS) (p : String) : FS :=
  if fs.dirs.contains p then fs else ⟨fs.files, p :: fs.dirs⟩

/-! ### Python exceptions

The builtin exception classes the code raises or maps, as a tree: each
type lists its ancestors (its method resolution order), mirroring the
builtin hierarchy, so isinstance is ancestor membership. -/

inductive ExcType where
  | exception
  | osError
  | fileNotFoundError
  | fileExistsError
  | permissionError
  | timeoutError
  | valueError
  | typeError
  | runtimeError
deriving DecidableEq, Repr, Fintype

/-- The ancestors of each exception class, itself first (Python's mro
restricted to the classes modelled here). -/
def ExcType.ancestors : ExcType → List ExcType
  | .exception => [.exception]
  | .osError => [.osError, .exception]
  | .fileNotFoundError => [.fileNotFoundError, .osError, .exception]
  | .fileExistsError => [.fileExistsError, .osError, .exception]
  | .permissionError => [.permissionError, .osError, .exception]
  | .timeoutError => [.timeoutError, .osError, .exception]
  | .valueError => [.valueError, .exception]
  | .typeError => [.typeError, .exception]
  | .runtimeError => [.runtimeError, .exception]

/-- isinstance(e, k) for an exception object of class t. -/
def ExcType.isinstance (t k : ExcType) : Bool :=
  t.ancestors.contains k

/-- issubclass on the modelled classes. -/
def ExcType.issubclass (t k : ExcType) : Bool :=
  t.ancestors.contains k

/-- A raised exception: its class and the str() of its argument. -/
structure Exc where
  ty : ExcType
  msg : String
deriving DecidableEq, Repr

/-! ### ErrorHandler (src/project/utils/error_handler.py) -/

namespace ErrorHandler

/-- The type-to-message dictionary, in its insertion order. -/
def ERROR_MESSAGES : List (ExcType × String) :=
  [(.fileNotFoundError, "The specified file could not be found."),
   (.permissionError, "You don't have permission to access this file."),
   (.osError, "A system error occurred. Please check your file access permissions."),
   (.valueError, "Invalid value provided for the operation."),
   (.typeError, "Incorrect type of data provided for the operation."),
   (.exception, "An unexpected error occurred.")]

/-- The template get_error_message picks for an exception of class t: an
exact dictionary entry first, else the first entry the exception is an
instance of in insertion order, else the generic Exception entry. -/
def getErrorTemplate (t : ExcType) : String :=
  match ERROR_MESSAGES.lookup t with
  | some m => m
  | none =>
    match ERROR_MESSAGES.find? (fun p => t.isinstance p.1) with
    | some p => p.2
    | none => (ERROR_MESSAGES.lookup .exception).getD ""

/-- ErrorHandler.get_error_message: the template, with the exception's own
text appended when it is nonempty. -/
def get_error_message (e : Exc) : String :=
  let message := getErrorTemplate e.ty
  if e.msg ≠ "" then message ++ " Details: " ++ e.msg else message

end ErrorHandler

/-! ### Stateful fallible computations and the decorator -/

/-- A Python value a conversion returns: a string, a list, or a
(success, payload) pair produced by a wrapped call. -/
inductive Value where
  | str : String → Value
  | list : List Value → Value
  | res : Bool → Value → Value

/-- The outcome of running a body: a normal return or a raised exception,
with the filesystem as the body left it. -/
abbrev CResult (α : Type) := Except Exc α × FS

/-- ErrorHandler.handle_exception: run the body, return (True, result) on a
normal return and (False, user-friendly message) on a raised exception.
Side effects performed before the raise persist. -/
def ErrorHandler.handle_exception (body : FS → CResult Value) (fs : FS) :
    (Bool × Value) × FS :=
  match body fs with
  | (.ok v, fs') => ((true, v), fs')
  | (.error e, fs') => ((false, .str (ErrorHandler.get_error_message e)), fs')

/-! ### FileHandler (src/project/utils/file_handler.py) -/

namespace FileHandler

/-- FileHandler.get_file_extension: the extension without the dot, lowercased. -/
def get_file_extension (file_path : String) : String :=
  strLower ⟨(splitext file_path).2.toList.drop 1⟩

/-- FileHandler.get_filename: the basename without its extension. -/
def get_filename (file_path : String) : String :=
  (splitext (basename file_path)).1

/-- FileHandler.get_directory. -/
def get_directory (file_path : String) : String :=
  dirname file_path

/-- FileHandler.ensure_directory_exists: os.makedirs(path, exist_ok=True);
on the empty path os.makedirs raises FileNotFoundError. -/
def ensure_directory_exists (directory_path : String) (fs : FS) : CResult Unit :=
  if directory_path = "" then
    (.error ⟨.fileNotFoundError, "[Errno 2] No such file or directory: ''"⟩, fs)
  else
    (.ok (), fs.addDir directory_path)

/-- FileHandler.validate_file. -/
def validate_file (fs : FS) (file_path : String) (allowed_extensions : List String) :
    Bool × String :=
  if ¬fs.pathExists file_path then
    (false, "File does not exist: " ++ file_path)
  else if ¬fs.isfile file_path then
    (false, "Not a file: " ++ file_path)
  else
    let ext := get_file_extension file_path
    if allowed_extensions ≠ [] ∧
        ¬(allowed_extensions.map (fun e => lstripDot (strLower e))).contains ext then
      (false, "Unsupported file extension: " ++ ext ++ ". Allowed: " ++
        joinWith ", " allowed_extensions)
    else
      (true, "")

/-- FileHandler.generate_output_path: output directory defaulting to the
input's directory (None modelled as the empty string), created if absent. -/
def generate_output_path (input_path output_dir new_extension : String) (fs : FS) :
    CResult String :=
  let filename := get_filename input_path
  let dir := if output_dir = "" then get_directory input_path else output_dir
  match ensure_directory_exists dir fs with
  | (.error e, fs') => (.error e, fs')
  | (.ok _, fs') => (.ok (pathJoin dir (filename ++ "." ++ new_extension)), fs')

end FileHandler

/-! ### ImageConverter (src/project/converters/image_converter.py)

Pixel work (PIL's open, transparency flattening, save options, LANCZOS
resampling) is exogenous; Image.save is modelled as the write of the
output path, and an opened image's size is passed in as two parameters
where the code reads img.size. -/

namespace ImageConverter

def SUPPORTED_FORMATS : List String :=
  ["png", "jpg", "jpeg", "bmp", "gif", "tiff", "tif"]

/-- The body of ImageConverter.convert_image (before the decorator). -/
def convertImageBody (input_path : String) (output_path output_format : Option String)
    (_quality : Option Int) (fs : FS) : CResult Value :=
  match FileHandler.validate_file fs input_path SUPPORTED_FORMATS with
  | (false, error_msg) => (.error ⟨.valueError, error_msg⟩, fs)
  | (true, _) =>
    let _input_format := strLower (FileHandler.get_file_extension input_path)
    let fmt : Except Exc String :=
      if truthy output_format then .ok (lstripDot (strLower (output_format.getD "")))
      else if truthy output_path then
        .ok (strLower (FileHandler.get_file_extension (output_path.getD "")))
      else .error ⟨.valueError, "Either output_path or output_format must be specified"⟩
    match fmt with
    | .error e => (.error e, fs)
    | .ok output_format' =>
      if ¬SUPPORTED_FORMATS.contains output_format' then
        (.error ⟨.valueError, "Unsupported output format: " ++ output_format' ++
          ". Supported formats are: " ++ joinWith ", " SUPPORTED_FORMATS⟩, fs)
      else
        match (if truthy output_path then (.ok (output_path.getD ""), fs)
               else FileHandler.generate_output_path input_path
                 (FileHandler.get_directory input_path) output_format' fs :
               CResult String) with
        | (.error e, fs₁) => (.error e, fs₁)
        | (.ok output_path', fs₁) =>
          (.ok (.str output_path'), fs₁.writeFile output_path')

/-- ImageConverter.convert_image, decorated with handle_exception. -/
def convert_image (input_path : String) (output_path output_format : Option String)
    (quality : Option Int) : FS → (Bool × Value) × FS :=
  ErrorHandler.handle_exception (convertImageBody input_path output_path output_format quality)

/-- The loop of ImageConverter.batch_convert: the failed item's payload is
also a string (the error message), so the isinstance(result, str) test
admits it into converted_files. -/
def batchLoop (input_files : List String) (output_dir output_format : String)
    (quality : Option Int) (acc : List Value) (fs : FS) : List Value × FS :=
  match input_files with
  | [] => (acc, fs)
  | input_file :: rest =>
    let filename := FileHandler.get_filename input_file
    let output_path := pathJoin output_dir (filename ++ "." ++ output_format)
    let ((_, result), fs') := convert_image input_file (some output_path) none quality fs
    let acc' := match result with
      | .str s => acc ++ [Value.str s]
      | _ => acc
    batchLoop rest output_dir output_format quality acc' fs'

/-- The body of ImageConverter.batch_convert. -/
def batchConvertBody (input_files : List String) (output_dir output_format : String)
    (quality : Option Int) (fs : FS) : CResult Value :=
  match FileHandler.ensure_directory_exists output_dir fs with
  | (.error e, fs') => (.error e, fs')
  | (.ok _, fs') =>
    let (converted, fs'') := batchLoop input_files output_dir output_format quality [] fs'
    (.ok (.list converted), fs'')

/-- ImageConverter.batch_convert, decorated. -/
def batch_convert (input_files : List String) (output_dir output_format : String)
    (quality : Option Int) : FS → (Bool × Value) × FS :=
  ErrorHandler.handle_exception (batchConvertBody input_files output_dir output_format quality)

/-- The new-dimension computation of ImageConverter.resize_image (its lines
186 to 208): the ratios are Python floats, modelled as bit-exact binary64
values, and int() is truncation toward zero.  The zero-size guards live in
Python's ZeroDivisionError, outside this computation: images have positive
size. -/
def computeResizeDims (original_width original_height : ℤ) (width height : Option Int)
    (maintain_aspect_ratio : Bool) : ℤ × ℤ :=
  if maintain_aspect_ratio then
    if truthyInt width && truthyInt height then
      let width_ratio := fdivD (width.getD 0) original_width
      let height_ratio := fdivD (height.getD 0) original_height
      let ratio := minD width_ratio height_ratio
      (pyIntD (fmulIntD original_width ratio), pyIntD (fmulIntD original_height ratio))
    else if truthyInt width then
      let ratio := fdivD (width.getD 0) original_width
      (width.getD 0, pyIntD (fmulIntD original_height ratio))
    else
      let ratio := fdivD (height.getD 0) original_height
      (pyIntD (fmulIntD original_width ratio), height.getD 0)
  else
    (if truthyInt width then width.getD 0 else original_width,
     if truthyInt height then height.getD 0 else original_height)

/-- The body of ImageConverter.resize_image; original_width and
original_height stand for img.size of the opened input. -/
def resizeImageBody (input_path output_path : String) (width height : Option Int)
    (maintain_aspect_ratio : Bool) (original_width original_height : ℤ) (fs : FS) :
    CResult Value :=
  if ¬truthyInt width ∧ ¬truthyInt height then
    (.error ⟨.valueError, "At least one of width or height must be specified"⟩, fs)
  else
    match FileHandler.validate_file fs input_path SUPPORTED_FORMATS with
    | (false, error_msg) => (.error ⟨.valueError, error_msg⟩, fs)
    | (true, _) =>
      let _dims := computeResizeDims original_width original_height width height
        maintain_aspect_ratio
      (.ok (.str output_path), fs.writeFile output_path)

/-- ImageConverter.resize_image, decorated. -/
def resize_image (input_path output_path : String) (width height : Option Int)
    (maintain_aspect_ratio : Bool) (original_width original_height : ℤ) :
    FS → (Bool × Value) × FS :=
  ErrorHandler.handle_exception (resizeImageBody input_path output_path width height
    maintain_aspect_ratio original_width original_height)

end ImageConverter

/-! ### MarkdownToHtmlConverter (src/project/converters/md_to_html.py)

The title, CSS and markdown-rendering parameters shape only the written
text, which the model does not track; the write itself is kept. -/

namespace MarkdownToHtmlConverter

def SUPPORTED_INPUT_FORMATS : List String := ["md", "markdown"]

/-- The body of MarkdownToHtmlConverter.convert_md_to_html. -/
def convertMdToHtmlBody (input_path : String) (output_path : Option String) (fs : FS) :
    CResult Value :=
  match FileHandler.validate_file fs input_path SUPPORTED_INPUT_FORMATS with
  | (false, error_msg) => (.error ⟨.valueError, error_msg⟩, fs)
  | (true, _) =>
    match (if truthy output_path then (.ok (output_path.getD ""), fs)
           else FileHandler.generate_output_path input_path
             (FileHandler.get_directory input_path) "html" fs : CResult String) with
    | (.error e, fs₁) => (.error e, fs₁)
    | (.ok output_path', fs₁) =>
      match FileHandler.ensure_directory_exists (dirname output_path') fs₁ with
      | (.error e, fs₂) => (.error e, fs₂)
      | (.ok _, fs₂) =>
        (.ok (.str output_path'), fs₂.writeFile output_path')

/-- MarkdownToHtmlConverter.convert_md_to_html, decorated. -/
def convert_md_to_html (input_path : String) (output_path : Option String) :
    FS → (Bool × Value) × FS :=
  ErrorHandler.handle_exception (convertMdToHtmlBody input_path output_path)

/-- The loop of MarkdownToHtmlConverter.batch_convert: the wrapped call
never raises, so the try/except in the source always appends its returned
(success, payload) pair, failures included. -/
def batchLoop (input_files : List String) (output_dir : String) (acc : List Value)
    (fs : FS) : List Value × FS :=
  match input_files with
  | [] => (acc, fs)
  | input_file :: rest =>
    let filename := FileHandler.get_filename input_file
    let output_path := pathJoin output_dir (filename ++ ".html")
    let ((s, v), fs') := convert_md_to_html input_file (some output_path) fs
    batchLoop rest output_dir (acc ++ [Value.res s v]) fs'

/-- The body of MarkdownToHtmlConverter.batch_convert. -/
def batchConvertBody (input_files : List String) (output_dir : String) (fs : FS) :
    CResult Value :=
  match FileHandler.ensure_directory_exists output_dir fs with
  | (.error e, fs') => (.error e, fs')
  | (.ok _, fs') =>
    let (converted, fs'') := batchLoop input_files output_dir [] fs'
    (.ok (.list converted), fs'')

/-- MarkdownToHtmlConverter.batch_convert, decorated. -/
def batch_convert (input_files : List String) (output_dir : String) :
    FS → (Bool × Value) × FS :=
  ErrorHandler.handle_exception (batchConvertBody input_files output_dir)

end MarkdownToHtmlConverter

/-! ### HtmlToPdfConverter (src/project/converters/html_to_pdf.py)

weasyprint_available is the WEASYPRINT_AVAILABLE flag computed at import
time; render_ok models whether the external write_pdf call succeeds
(stylesheets, base_url and rendering options shape only the pdf bytes). -/

namespace HtmlToPdfConverter

def SUPPORTED_INPUT_FORMATS : List String := ["html", "htm"]

def unavailableMsg : String :=
  "WeasyPrint is not available. Please install all required dependencies for WeasyPrint to use this feature."

/-- The body of HtmlToPdfConverter.convert_html_to_pdf. -/
def convertHtmlToPdfBody (weasyprint_available render_ok : Bool) (input_path : String)
    (output_path : Option String) (fs : FS) : CResult Value :=
  if ¬weasyprint_available then
    (.error ⟨.runtimeError, unavailableMsg⟩, fs)
  else
    match FileHandler.validate_file fs input_path SUPPORTED_INPUT_FORMATS with
    | (false, error_msg) => (.error ⟨.valueError, error_msg⟩, fs)
    | (true, _) =>
      match (if truthy output_path then (.ok (output_path.getD ""), fs)
             else FileHandler.generate_output_path input_path
               (FileHandler.get_directory input_path) "pdf" fs : CResult String) with
      | (.error e, fs₁) => (.error e, fs₁)
      | (.ok output_path', fs₁) =>
        match FileHandler.ensure_directory_exists (dirname output_path') fs₁ with
        | (.error e, fs₂) => (.error e, fs₂)
        | (.ok _, fs₂) =>
          if ¬render_ok then (.error ⟨.osError, "write_pdf failed"⟩, fs₂)
          else (.ok (.str output_path'), fs₂.writeFile output_path')

/-- HtmlToPdfConverter.convert_html_to_pdf, decorated. -/
def convert_html_to_pdf (weasyprint_available render_ok : Bool) (input_path : String)
    (output_path : Option String) : FS → (Bool × Value) × FS :=
  ErrorHandler.handle_exception
    (convertHtmlToPdfBody weasyprint_available render_ok input_path output_path)

/-- The body of HtmlToPdfConverter.convert_html_string_to_pdf; temp_name is
the fresh name NamedTemporaryFile picks, and the finally block removes it
on success and failure alike. -/
def convertHtmlStringToPdfBody (weasyprint_available render_ok : Bool)
    (output_path temp_name : String) (fs : FS) : CResult Value :=
  if ¬weasyprint_available then
    (.error ⟨.runtimeError, unavailableMsg⟩, fs)
  else
    match FileHandler.ensure_directory_exists (dirname output_path) fs with
    | (.error e, fs₁) => (.error e, fs₁)
    | (.ok _, fs₁) =>
      let fs₂ := fs₁.writeFile temp_name
      let (r, fs₃) : Except Exc String × FS :=
        if ¬render_ok then (.error ⟨.osError, "write_pdf failed"⟩, fs₂)
        else (.ok output_path, fs₂.writeFile output_path)
      let fs₄ := if fs₃.pathExists temp_name then fs₃.removeFile temp_name else fs₃
      (r.map Value.str, fs₄)

/-- HtmlToPdfConverter.convert_html_string_to_pdf, decorated. -/
def convert_html_string_to_pdf (weasyprint_available render_ok : Bool)
    (output_path temp_name : String) : FS → (Bool × Value) × FS :=
  ErrorHandler.handle_exception
    (convertHtmlStringToPdfBody weasyprint_available render_ok output_path temp_name)

/-- The loop of HtmlToPdfConverter.batch_convert: the wrapped call returns a
2-tuple, which is always truthy in Python, so the returned pair is appended
for failures as well and the logging else-branch is unreachable. -/
def batchLoop (weasyprint_available render_ok : Bool) (input_files : List String)
    (output_dir : String) (acc : List Value) (fs : FS) : List Value × FS :=
  match input_files with
  | [] => (acc, fs)
  | input_file :: rest =>
    let filename := FileHandler.get_filename input_file
    let output_path := pathJoin output_dir (filename ++ ".pdf")
    let ((s, v), fs') := convert_html_to_pdf weasyprint_available render_ok input_file
      (some output_path) fs
    batchLoop weasyprint_available render_ok rest output_dir (acc ++ [Value.res s v]) fs'

/-- The body of HtmlToPdfConverter.batch_convert. -/
def batchConvertBody (weasyprint_available render_ok : Bool) (input_files : List String)
    (output_dir : String) (fs : FS) : CResult Value :=
  if ¬weasyprint_available then
    (.error ⟨.runtimeError, unavailableMsg⟩, fs)
  else
    match FileHandler.ensure_directory_exists output_dir fs with
    | (.error e, fs') => (.error e, fs')
    | (.ok _, fs') =>
      let (converted, fs'') := batchLoop weasyprint_available render_ok input_files
        output_dir [] fs'
      (.ok (.list converted), fs'')

/-- HtmlToPdfConverter.batch_convert, decorated. -/
def batch_convert (weasyprint_available render_ok : Bool) (input_files : List String)
    (output_dir : String) : FS → (Bool × Value) × FS :=
  ErrorHandler.handle_exception
    (batchConvertBody weasyprint_available render_ok input_files output_dir)

end HtmlToPdfConverter

/-! ### MarkdownToPdfConverter (src/project/converters/md_to_pdf.py) -/

namespace MarkdownToPdfConverter

def SUPPORTED_INPUT_FORMATS : List String := ["md", "markdown"]

def unavailableMsg : String :=
  "HTML to PDF conversion is not available. Please install all required dependencies for WeasyPrint to use this feature."

/-- The TypeError that step 2 of convert_md_to_pdf always raises: the source
passes use_custom_css=False, but convert_html_to_pdf has no such parameter,
so Python raises when the decorator's wrapper calls func with the received
keywords, before the function body runs.  The msg is CPython's str() of that
TypeError (the quotes CPython puts around the keyword name are elided). -/
def useCustomCssTypeError : Exc :=
  ⟨.typeError,
    "convert_html_to_pdf() got an unexpected keyword argument use_custom_css"⟩

/-- The body of MarkdownToPdfConverter.convert_md_to_pdf; temp_name is the
name NamedTemporaryFile picks when keep_html is false.  Both pipeline steps
are calls of the other converters' decorated methods, so the try block
raises nothing and the finally block runs after it.  Step 2 passes the
keyword use_custom_css=False, which convert_html_to_pdf does not accept:
the wrapped call raises TypeError at the call boundary, inside the wrapper
but before the body, so it always returns (False, message), touches no file,
and the body returns that pair. -/
def convertMdToPdfBody (weasyprint_available render_ok : Bool) (input_path : String)
    (output_path : Option String) (keep_html : Bool) (html_path : Option String)
    (temp_name : String) (fs : FS) : CResult Value :=
  if ¬weasyprint_available then
    (.error ⟨.runtimeError, unavailableMsg⟩, fs)
  else
    match FileHandler.validate_file fs input_path SUPPORTED_INPUT_FORMATS with
    | (false, error_msg) => (.error ⟨.valueError, error_msg⟩, fs)
    | (true, _) =>
      match (if truthy output_path then (.ok (output_path.getD ""), fs)
             else FileHandler.generate_output_path input_path
               (FileHandler.get_directory input_path) "pdf" fs : CResult String) with
      | (.error e, fs₁) => (.error e, fs₁)
      | (.ok output_path', fs₁) =>
        let output_dir := dirname output_path'
        match FileHandler.ensure_directory_exists output_dir fs₁ with
        | (.error e, fs₂) => (.error e, fs₂)
        | (.ok _, fs₂) =>
          match (if keep_html && ¬truthy html_path then
                   match FileHandler.generate_output_path input_path output_dir "html" fs₂ with
                   | (.error e, fs₃) => (.error e, fs₃)
                   | (.ok h, fs₃) => (.ok (some h), fs₃)
                 else (.ok html_path, fs₂) : CResult (Option String)) with
          | (.error e, fs₃) => (.error e, fs₃)
          | (.ok html_path₁, fs₃) =>
            let (html_path₂, fs₄) :=
              if ¬keep_html then (some temp_name, fs₃.writeFile temp_name)
              else (html_path₁, fs₃)
            let ((_, _html_v), fs₅) :=
              MarkdownToHtmlConverter.convert_md_to_html input_path html_path₂ fs₄
            let ((s, v), fs₆) :=
              ErrorHandler.handle_exception
                (fun fs => (.error useCustomCssTypeError, fs)) fs₅
            let fs₇ :=
              if ¬keep_html && truthy html_path₂ && fs₆.pathExists (html_path₂.getD "") then
                fs₆.removeFile (html_path₂.getD "")
              else fs₆
            (.ok (Value.res s v), fs₇)

/-- MarkdownToPdfConverter.convert_md_to_pdf, decorated. -/
def convert_md_to_pdf (weasyprint_available render_ok : Bool) (input_path : String)
    (output_path : Option String) (keep_html : Bool) (html_path : Option String)
    (temp_name : String) : FS → (Bool × Value) × FS :=
  ErrorHandler.handle_exception (convertMdToPdfBody weasyprint_available render_ok
    input_path output_path keep_html html_path temp_name)

/-- The loop of MarkdownToPdfConverter.batch_convert: the wrapped call never
raises, so its returned (success, payload) pair is appended for every item;
temp_names supplies the per-item NamedTemporaryFile names. -/
def batchLoop (weasyprint_available render_ok : Bool)
    (items : List (String × String)) (output_dir : String) (keep_html : Bool)
    (acc : List Value) (fs : FS) : List Value × FS :=
  match items with
  | [] => (acc, fs)
  | (input_file, temp_name) :: rest =>
    let filename := FileHandler.get_filename input_file
    let pdf_path := pathJoin output_dir (filename ++ ".pdf")
    let html_path := if keep_html then some (pathJoin output_dir (filename ++ ".html"))
      else none
    let (result, fs') := convert_md_to_pdf weasyprint_available render_ok input_file
      (some pdf_path) keep_html html_path temp_name fs
    batchLoop weasyprint_available render_ok rest output_dir keep_html
      (acc ++ [Value.res result.1 result.2]) fs'

/-- The body of MarkdownToPdfConverter.batch_convert. -/
def batchConvertBody (weasyprint_available render_ok : Bool)
    (input_files : List String) (output_dir : String) (keep_html : Bool)
    (temp_names : List String) (fs : FS) : CResult Value :=
  if ¬weasyprint_available then
    (.error ⟨.runtimeError, unavailableMsg⟩, fs)
  else
    match FileHandler.ensure_directory_exists output_dir fs with
    | (.error e, fs') => (.error e, fs')
    | (.ok _, fs') =>
      let (converted, fs'') := batchLoop weasyprint_available render_ok
        (input_files.zip temp_names) output_dir keep_html [] fs'
      (.ok (.list converted), fs'')

/-- MarkdownToPdfConverter.batch_convert, decorated. -/
def batch_convert (weasyprint_available render_ok : Bool) (input_files : List String)
    (output_dir : String) (keep_html : Bool) (temp_names : List String) :
    FS → (Bool × Value) × FS :=
  ErrorHandler.handle_exception (batchConvertBody weasyprint_available render_ok
    input_files output_dir keep_html temp_names)

end MarkdownToPdfConverter

/-! ### PdfToWordConverter (src/project/converters/pdf_to_word.py)

The pdf2docx Converter call is modelled as the write of the output path;
page-range arithmetic shapes only the docx content. -/

namespace PdfToWordConverter

def SUPPORTED_INPUT_FORMATS : List String := ["pdf"]

/-- The body of PdfToWordConverter.convert_pdf_to_word. -/
def convertPdfToWordBody (input_path : String) (output_path : Option String) (fs : FS) :
    CResult Value :=
  match FileHandler.validate_file fs input_path SUPPORTED_INPUT_FORMATS with
  | (false, error_msg) => (.error ⟨.valueError, error_msg⟩, fs)
  | (true, _) =>
    match (if truthy output_path then (.ok (output_path.getD ""), fs)
           else FileHandler.generate_output_path input_path
             (FileHandler.get_directory input_path) "docx" fs : CResult String) with
    | (.error e, fs₁) => (.error e, fs₁)
    | (.ok output_path', fs₁) =>
      match FileHandler.ensure_directory_exists (dirname output_path') fs₁ with
      | (.error e, fs₂) => (.error e, fs₂)
      | (.ok _, fs₂) =>
        (.ok (.str output_path'), fs₂.writeFile output_path')

/-- PdfToWordConverter.convert_pdf_to_word, decorated. -/
def convert_pdf_to_word (input_path : String) (output_path : Option String) :
    FS → (Bool × Value) × FS :=
  ErrorHandler.handle_exception (convertPdfToWordBody input_path output_path)

/-- The loop of PdfToWordConverter.batch_convert: this converter unpacks the
(success, result) pair and appends only on success. -/
def batchLoop (input_files : List String) (output_dir : String) (acc : List Value)
    (fs : FS) : List Value × FS :=
  match input_files with
  | [] => (acc, fs)
  | input_file :: rest =>
    let filename := FileHandler.get_filename input_file
    let output_path := pathJoin output_dir (filename ++ ".docx")
    let ((success, result), fs') := convert_pdf_to_word input_file (some output_path) fs
    let acc' := if success then acc ++ [result] else acc
    batchLoop rest output_dir acc' fs'

/-- The body of PdfToWordConverter.batch_convert. -/
def batchConvertBody (input_files : List String) (output_dir : String) (fs : FS) :
    CResult Value :=
  match FileHandler.ensure_directory_exists output_dir fs with
  | (.error e, fs') => (.error e, fs')
  | (.ok _, fs') =>
    let (converted, fs'') := batchLoop input_files output_dir [] fs'
    (.ok (.list converted), fs'')

/-- PdfToWordConverter.batch_convert, decorated. -/
def batch_convert (input_files : List String) (output_dir : String) :
    FS → (Bool × Value) × FS :=
  ErrorHandler.handle_exception (batchConvertBody input_files output_dir)

end PdfToWordConverter

/-! ### ConversionWorker (src/project/gui/main_window.py) -/

/-- The notifications a worker emits. -/
inductive Signal where
  | result : Value → Signal
  | error : String → Signal
  | finished : Signal

/-- A terminal notification is result or error; finished is the completion
notification. -/
def Signal.isTerminal : Signal → Bool
  | .finished => false
  | _ => true

namespace ConversionWorker

/-- ConversionWorker.run: emit result on a normal return of the converter
function, error (with the user-friendly message) on a raise, and finished
in the finally block; the emitted signals in order. -/
def run (outcome : Except Exc Value) : List Signal :=
  match outcome with
  | .ok v => [.result v, .finished]
  | .error e => [.error (ErrorHandler.get_error_message e), .finished]

end ConversionWorker

/-! ### Verification of the claims -/

/-- A string append with a nonempty left part is nonempty. -/
theorem append_left_ne_empty (a b : String) (ha : a ≠ "") : a ++ b ≠ "" := by
  intro he
  have hd := congrArg String.data he
  simp [String.data_append] at hd
  exact ha (String.ext hd.1)

/-- Every template of the error-message table is a nonempty string. -/
theorem getErrorTemplate_ne_empty : ∀ t : ExcType, ErrorHandler.getErrorTemplate t ≠ "" := by
  decide

/-- ErrorHandler.get_error_message never produces the empty string. -/
theorem get_error_message_ne_empty (e : Exc) : ErrorHandler.get_error_message e ≠ "" := by
  unfold ErrorHandler.get_error_message
  split
  · exact append_left_ne_empty _ _ (append_left_ne_empty _ _ (getErrorTemplate_ne_empty e.ty))
  · exact getErrorTemplate_ne_empty e.ty

/-- C1: every public conversion entry point is the ErrorHandler.handle_exception
wrapper around its body, so a call never propagates a raised exception: it
returns (True, result) when the body returns normally, and (False, msg) with a
non-empty user-friendly error message whenever the body raises. -/
theorem C1_result_contract (body : FS → CResult Value) (fs : FS) :
    (∃ v fs', body fs = (.ok v, fs') ∧
      ErrorHandler.handle_exception body fs = ((true, v), fs')) ∨
    (∃ e fs', body fs = (.error e, fs') ∧
      ErrorHandler.handle_exception body fs =
        ((false, .str (ErrorHandler.get_error_message e)), fs') ∧
      ErrorHandler.get_error_message e ≠ "") := by
  rcases h : body fs with ⟨r, fs'⟩
  cases r with
  | ok v =>
    left
    exact ⟨v, fs', rfl, by unfold ErrorHandler.handle_exception; rw [h]⟩
  | error e =>
    right
    exact ⟨e, fs', rfl, by unfold ErrorHandler.handle_exception; rw [h],
      get_error_message_ne_empty e⟩

/-- C9: ConversionWorker.run emits exactly one terminal notification (result
on a normal return of the converter function, error with the user-friendly
message on a raise) and exactly one finished notification, which comes last on
every execution path. -/
theorem C9_worker_signals (outcome : Except Exc Value) :
    (ConversionWorker.run outcome).countP (fun s => s.isTerminal) = 1 ∧
    (ConversionWorker.run outcome).countP (fun s => !s.isTerminal) = 1 ∧
    (ConversionWorker.run outcome).getLast? = some Signal.finished ∧
    (∀ v, outcome = .ok v →
      ConversionWorker.run outcome = [.result v, .finished]) ∧
    (∀ e, outcome = .error e →
      ConversionWorker.run outcome = [.error (ErrorHandler.get_error_message e), .finished]) := by
  cases outcome with
  | ok v =>
    refine ⟨?_, ?_, ?_, ?_, ?_⟩ <;>
      simp [ConversionWorker.run, Signal.isTerminal, List.countP_cons]
  | error e =>
    refine ⟨?_, ?_, ?_, ?_, ?_⟩ <;>
      simp [ConversionWorker.run, Signal.isTerminal, List.countP_cons]

/-- C8: get_error_message's template selection returns the most specific
matching entry of ERROR_MESSAGES: whenever a table entry matches the
exception's class and is a subclass of every other matching entry, that
entry's template is the one returned, for every class of the modelled
exception hierarchy. -/
theorem C8_most_specific : ∀ t k : ExcType, t.isinstance k = true →
    (ErrorHandler.ERROR_MESSAGES.lookup k).isSome = true →
    (∀ p ∈ ErrorHandler.ERROR_MESSAGES, t.isinstance p.1 = true → k.issubclass p.1 = true) →
    ErrorHandler.getErrorTemplate t = (ErrorHandler.ERROR_MESSAGES.lookup k).getD "" := by
  decide

/-- C8 witness: FileExistsError, a strict subclass of the OSError and
Exception entries, receives the more derived OSError template. -/
theorem C8_witness :
    ExcType.isinstance .fileExistsError .osError = true ∧
    (ErrorHandler.ERROR_MESSAGES.lookup .osError).isSome = true ∧
    (∀ p ∈ ErrorHandler.ERROR_MESSAGES, ExcType.isinstance .fileExistsError p.1 = true →
      ExcType.issubclass .osError p.1 = true) ∧
    ErrorHandler.getErrorTemplate .fileExistsError =
      (ErrorHandler.ERROR_MESSAGES.lookup .osError).getD "" :=
  ⟨by decide, by decide, by decide,
    C8_most_specific .fileExistsError .osError (by decide) (by decide) (by decide)⟩

/-- C2: evidence of the batch_convert defect: on a two-item batch whose
second input file is missing, ImageConverter.batch_convert reports success
with a two-element list whose second element is the error-message string
(the isinstance test admits failure payloads, which are also strings), not
the one-element list of successful output paths the claim describes. -/
theorem C2_batch_keeps_failure :
    (ImageConverter.batch_convert ["imgs/a.png", "missing.png"] "out" "png" none
      ⟨["imgs/a.png"], []⟩).1 =
    (true, Value.list [Value.str "out/a.png",
      Value.str "Invalid value provided for the operation. Details: File does not exist: missing.png"]) :=
  rfl

/-- C3: evidence of the composed-converter defect: step 2 of convert_md_to_pdf
passes use_custom_css=False to convert_html_to_pdf, which has no such
parameter, so the wrapped inner call raises TypeError before its body runs
and always returns (False, message) without writing a PDF; the outer
decorator wraps that pair again.  On a valid Markdown input with weasyprint
available the program therefore reports success whose payload is the pair
(False, TypeError message) — not the output path string — and the PDF file
is never created. -/
theorem C3_payload_is_pair :
    (MarkdownToPdfConverter.convert_md_to_pdf true true "docs/a.md" (some "docs/a.pdf")
      false none "/tmp/t1.html" ⟨["docs/a.md"], []⟩).1 =
      (true, Value.res false (Value.str
        (ErrorHandler.get_error_message MarkdownToPdfConverter.useCustomCssTypeError))) ∧
    ((MarkdownToPdfConverter.convert_md_to_pdf true true "docs/a.md" (some "docs/a.pdf")
      false none "/tmp/t1.html" ⟨["docs/a.md"], []⟩).2).files.contains "docs/a.pdf"
      = false ∧
    (∀ s, Value.res false (Value.str
        (ErrorHandler.get_error_message MarkdownToPdfConverter.useCustomCssTypeError))
      ≠ Value.str s) :=
  ⟨rfl, rfl, fun _ h => Value.noConfusion h⟩

end FileConverter
namespace FileConverter

/-- Characterization of the successful result of FileHandler.validate_file. -/
theorem validate_file_true_iff (fs : FS) (path : String) (exts : List String) :
    FileHandler.validate_file fs path exts = (true, "") ↔
      (fs.pathExists path = true ∧ fs.isfile path = true ∧
        (exts = [] ∨ (exts.map (fun e => lstripDot (strLower e))).contains
          (FileHandler.get_file_extension path) = true)) := by
  simp only [FileHandler.validate_file]
  split_ifs with h1 h2 h3 <;> simp_all [Prod.ext_iff] <;> tauto

/-- A valid result of validate_file always carries the empty message. -/
theorem validate_file_true_shape (fs : FS) (path : String) (exts : List String)
    (h : (FileHandler.validate_file fs path exts).1 = true) :
    FileHandler.validate_file fs path exts = (true, "") := by
  revert h
  simp only [FileHandler.validate_file]
  split_ifs <;> simp

/-- An invalid result of validate_file always carries a nonempty message. -/
theorem validate_file_false_msg (fs : FS) (path : String) (exts : List String)
    (h : (FileHandler.validate_file fs path exts).1 = false) :
    (FileHandler.validate_file fs path exts).2 ≠ "" := by
  revert h
  simp only [FileHandler.validate_file]
  split_ifs <;> intro hb <;>
    first
      | exact append_left_ne_empty _ _ (by decide)
      | exact append_left_ne_empty _ _
          (append_left_ne_empty _ _ (append_left_ne_empty _ _ (by decide)))
      | simp at hb

/-- C4 counterexample: for an existing regular file and an empty allowed
list, validate_file returns (True, "") although the extension is not a member
of the (empty) allowed set, so the claim fails as stated. -/
theorem C4_counterexample :
    FileHandler.validate_file ⟨["a.xyz"], []⟩ "a.xyz" [] = (true, "") ∧
    FileHandler.get_file_extension "a.xyz" ∉ ([] : List String) :=
  ⟨rfl, by simp⟩

/-- C4 (amended): validate_file returns (True, "") exactly when the path
exists, is a regular file, and the allowed list is empty or contains the
file's extension after lowercasing and stripping a leading dot; a true flag
always comes with the empty message, a false flag always with a non-empty
descriptive message, and the function is total (never raises). -/
theorem C4_amended_validate_file (fs : FS) (path : String) (exts : List String) :
    (FileHandler.validate_file fs path exts = (true, "") ↔
      (fs.pathExists path = true ∧ fs.isfile path = true ∧
        (exts = [] ∨ (exts.map (fun e => lstripDot (strLower e))).contains
          (FileHandler.get_file_extension path) = true))) ∧
    ((FileHandler.validate_file fs path exts).1 = true →
      FileHandler.validate_file fs path exts = (true, "")) ∧
    ((FileHandler.validate_file fs path exts).1 = false →
      (FileHandler.validate_file fs path exts).2 ≠ "") :=
  ⟨validate_file_true_iff fs path exts, validate_file_true_shape fs path exts,
    validate_file_false_msg fs path exts⟩

/-- C10: for an existing regular file, validate_file with an empty allowed
list returns (True, "") regardless of extension, and with a non-empty list
accepts exactly when the file's lowercased extension occurs among the allowed
entries lowercased and stripped of leading dots. -/
theorem C10_validate_file_normalization (fs : FS) (path : String) (exts : List String)
    (hfile : fs.isfile path = true) :
    FileHandler.validate_file fs path [] = (true, "") ∧
    (exts ≠ [] →
      ((FileHandler.validate_file fs path exts).1 = true ↔
        (exts.map (fun e => lstripDot (strLower e))).contains
          (FileHandler.get_file_extension path) = true)) := by
  have hex : fs.pathExists path = true := by
    simp only [FS.isfile] at hfile
    simp only [FS.pathExists, hfile, Bool.true_or]
  refine ⟨(validate_file_true_iff fs path []).mpr ⟨hex, hfile, Or.inl rfl⟩,
    fun hne => ⟨?_, ?_⟩⟩
  · intro h1
    have h2 := (validate_file_true_iff fs path exts).mp
      (validate_file_true_shape fs path exts h1)
    rcases h2.2.2 with h | h
    · exact absurd h hne
    · exact h
  · intro hc
    have h := (validate_file_true_iff fs path exts).mpr ⟨hex, hfile, Or.inr hc⟩
    rw [h]

/-- C10 witness: the file A.PNG with allowed entry ..PnG, matched through
lowercasing and dot stripping. -/
theorem C10_witness :
    FS.isfile ⟨["A.PNG"], []⟩ "A.PNG" = true ∧
    (FileHandler.validate_file ⟨["A.PNG"], []⟩ "A.PNG" [] = (true, "") ∧
      ((["..PnG"] : List String) ≠ [] →
        ((FileHandler.validate_file ⟨["A.PNG"], []⟩ "A.PNG" ["..PnG"]).1 = true ↔
          ((["..PnG"] : List String).map (fun e => lstripDot (strLower e))).contains
            (FileHandler.get_file_extension "A.PNG") = true))) :=
  ⟨by decide,
    C10_validate_file_normalization ⟨["A.PNG"], []⟩ "A.PNG" ["..PnG"] (by decide)⟩

/-- C5: with the WeasyPrint availability flag false, every HTML-to-PDF and
Markdown-to-PDF operation (single file, HTML string and batch) returns a
failure whose message reports the unavailable dependency, and the returned
filesystem is exactly the input filesystem: no validation effect, directory
creation or file write happens. -/
theorem C5_unavailable_state_unchanged (render_ok keep : Bool) (fs : FS)
    (input temp outdir outp : String) (out hp : Option String)
    (inputs tnames : List String) :
    HtmlToPdfConverter.convert_html_to_pdf false render_ok input out fs =
      ((false, .str (ErrorHandler.get_error_message
        ⟨.runtimeError, HtmlToPdfConverter.unavailableMsg⟩)), fs) ∧
    HtmlToPdfConverter.convert_html_string_to_pdf false render_ok outp temp fs =
      ((false, .str (ErrorHandler.get_error_message
        ⟨.runtimeError, HtmlToPdfConverter.unavailableMsg⟩)), fs) ∧
    HtmlToPdfConverter.batch_convert false render_ok inputs outdir fs =
      ((false, .str (ErrorHandler.get_error_message
        ⟨.runtimeError, HtmlToPdfConverter.unavailableMsg⟩)), fs) ∧
    MarkdownToPdfConverter.convert_md_to_pdf false render_ok input out keep hp temp fs =
      ((false, .str (ErrorHandler.get_error_message
        ⟨.runtimeError, MarkdownToPdfConverter.unavailableMsg⟩)), fs) ∧
    MarkdownToPdfConverter.batch_convert false render_ok inputs outdir keep tnames fs =
      ((false, .str (ErrorHandler.get_error_message
        ⟨.runtimeError, MarkdownToPdfConverter.unavailableMsg⟩)), fs) ∧
    "not available".toList <:+: (ErrorHandler.get_error_message
      ⟨.runtimeError, HtmlToPdfConverter.unavailableMsg⟩).toList ∧
    "not available".toList <:+: (ErrorHandler.get_error_message
      ⟨.runtimeError, MarkdownToPdfConverter.unavailableMsg⟩).toList :=
  ⟨rfl, rfl, rfl, rfl, rfl, by decide, by decide⟩

/-- C7 counterexample: at original size 49 by 49 with only width 1 given, the
program computes the height as int(49 * (1/49)) in binary64 arithmetic, which
is int(0.9999999999999999) = 0, while the claimed floor(H * w / W) is 1. -/
theorem C7_counterexample :
    ImageConverter.computeResizeDims 49 49 (some 1) none true = (1, 0) ∧
    ImageConverter.computeResizeDims 49 49 (some 1) none true ≠
      (1, ⌊((49 : ℤ) : ℚ) * ((1 : ℤ) : ℚ) / ((49 : ℤ) : ℚ)⌋) := by
  have hfl : ((49 : ℤ) : ℚ) * ((1 : ℤ) : ℚ) / ((49 : ℤ) : ℚ) = 1 := by norm_num
  refine ⟨by decide, ?_⟩
  rw [hfl, Int.floor_one]
  decide

/-- C7 (amended): with aspect-ratio maintenance off and width=height=50 the
output dimensions are exactly (50, 50) for every original size; with
maintenance on and only a width w given the output width is exactly w, and
the output height is the binary64 evaluation int(H * (w / W)), which agrees
with floor(H * w / W) at ordinary sizes — at (W, H, w) = (100, 60, 50) the
height is 30 — but not universally: at (W, H, w) = (49, 49, 1) it is 0. -/
theorem C7_resize_dims (W H w : ℤ) (hw : 0 < w) :
    ImageConverter.computeResizeDims W H (some 50) (some 50) false = (50, 50) ∧
    (ImageConverter.computeResizeDims W H (some w) none true).1 = w ∧
    ImageConverter.computeResizeDims 100 60 (some 50) none true = (50, 30) ∧
    ImageConverter.computeResizeDims 49 49 (some 1) none true = (1, 0) := by
  refine ⟨?_, ?_, by decide, by decide⟩
  · simp [ImageConverter.computeResizeDims, truthyInt]
  · simp [ImageConverter.computeResizeDims, truthyInt, hw.ne']

/-- C7 witness: the conclusions at the size 100 by 60 with width 50. -/
theorem C7_witness :
    (0 : ℤ) < 50 ∧
    (ImageConverter.computeResizeDims 100 60 (some 50) (some 50) false = (50, 50) ∧
     (ImageConverter.computeResizeDims 100 60 (some 50) none true).1 = 50 ∧
     ImageConverter.computeResizeDims 100 60 (some 50) none true = (50, 30) ∧
     ImageConverter.computeResizeDims 49 49 (some 1) none true = (1, 0)) :=
  ⟨by decide, C7_resize_dims 100 60 50 (by decide)⟩

/-- Creating a directory leaves the regular files unchanged. -/
theorem addDir_files (fs : FS) (d : String) : (fs.addDir d).files = fs.files := by
  unfold FS.addDir
  split <;> rfl

/-- A write preserves every file already present. -/
theorem writeFile_mem (fs : FS) (p q : String) (h : fs.files.contains q = true) :
    (fs.writeFile p).files.contains q = true := by
  unfold FS.writeFile
  split
  · exact h
  · simp only [List.contains_cons, h, Bool.or_true]

/-- After a write the written path is present. -/
theorem writeFile_self (fs : FS) (p : String) :
    (fs.writeFile p).files.contains p = true := by
  unfold FS.writeFile
  split
  · assumption
  · simp [List.contains_cons]

/-- After a removal the removed path is absent. -/
theorem removeFile_not_mem (fs : FS) (p : String) :
    (fs.removeFile p).files.contains p = false := by
  simp only [FS.removeFile]
  by_contra h
  simp only [Bool.not_eq_false] at h
  have : p ∈ fs.files.filter (fun q => q ≠ p) := by
    simpa using h
  simp [List.mem_filter] at this

/-- The decorator returns the filesystem exactly as the body left it. -/
theorem handle_exception_snd (b : FS → CResult Value) (fs : FS) :
    (ErrorHandler.handle_exception b fs).2 = (b fs).2 := by
  unfold ErrorHandler.handle_exception
  rcases h : b fs with ⟨r, fs'⟩
  cases r <;> simp [h]

/-- ensure_directory_exists changes no regular file. -/
theorem ensure_files (d : String) (fs : FS) :
    ((FileHandler.ensure_directory_exists d fs).2).files = fs.files := by
  simp only [FileHandler.ensure_directory_exists]
  split_ifs <;> simp [addDir_files]

/-- generate_output_path changes no regular file. -/
theorem generate_files (i d e : String) (fs : FS) :
    ((FileHandler.generate_output_path i d e fs).2).files = fs.files := by
  simp only [FileHandler.generate_output_path, FileHandler.ensure_directory_exists]
  split_ifs <;> simp [addDir_files]

/-- A successful validation still succeeds on a filesystem holding at least
the same regular files. -/
theorem validate_file_preserve (fs fs' : FS) (p : String) (ax : List String)
    (hf : ∀ q, fs.files.contains q = true → fs'.files.contains q = true)
    (h : FileHandler.validate_file fs p ax = (true, "")) :
    FileHandler.validate_file fs' p ax = (true, "") := by
  have h1 := (validate_file_true_iff fs p ax).mp h
  apply (validate_file_true_iff fs' p ax).mpr
  have hfile : fs'.isfile p = true := hf p h1.2.1
  refine ⟨?_, hfile, h1.2.2⟩
  simp only [FS.pathExists]
  simp only [FS.isfile] at hfile
  rw [hfile, Bool.true_or]

/-- The Markdown-to-HTML body never removes a regular file. -/
theorem convertMdToHtmlBody_files_mono (i : String) (o : Option String) (fs : FS) (q : String)
    (h : fs.files.contains q = true) :
    ((MarkdownToHtmlConverter.convertMdToHtmlBody i o fs).2).files.contains q = true := by
  unfold MarkdownToHtmlConverter.convertMdToHtmlBody
  split
  · exact h
  · split
    next e fs₁ heq =>
      have hf : fs₁.files = fs.files := by
        have h2 := congrArg (fun r : CResult String => r.2.files) heq
        dsimp at h2
        rw [← h2]
        split_ifs
        · rfl
        · apply generate_files
      show fs₁.files.contains q = true
      rw [hf]; exact h
    next op fs₁ heq =>
      have hf : fs₁.files = fs.files := by
        have h2 := congrArg (fun r : CResult String => r.2.files) heq
        dsimp at h2
        rw [← h2]
        split_ifs
        · rfl
        · apply generate_files
      split
      next e fs₂ heq2 =>
        have hf2 : fs₂.files = fs₁.files := by
          have h2 := congrArg (fun r : CResult Unit => r.2.files) heq2
          dsimp at h2
          rw [← h2, ensure_files]
        show fs₂.files.contains q = true
        rw [hf2, hf]; exact h
      next u fs₂ heq2 =>
        have hf2 : fs₂.files = fs₁.files := by
          have h2 := congrArg (fun r : CResult Unit => r.2.files) heq2
          dsimp at h2
          rw [← h2, ensure_files]
        show ((fs₂.writeFile op).files).contains q = true
        apply writeFile_mem
        rw [hf2, hf]; exact h

/-- The HTML-to-PDF body never removes a regular file. -/
theorem convertHtmlToPdfBody_files_mono (a r : Bool) (i : String) (o : Option String)
    (fs : FS) (q : String) (h : fs.files.contains q = true) :
    ((HtmlToPdfConverter.convertHtmlToPdfBody a r i o fs).2).files.contains q = true := by
  unfold HtmlToPdfConverter.convertHtmlToPdfBody
  split
  · exact h
  · split
    · exact h
    · split
      next e fs₁ heq =>
        have hf : fs₁.files = fs.files := by
          have h2 := congrArg (fun r : CResult String => r.2.files) heq
          dsimp at h2
          rw [← h2]
          split_ifs
          · rfl
          · apply generate_files
        show fs₁.files.contains q = true
        rw [hf]; exact h
      next op fs₁ heq =>
        have hf : fs₁.files = fs.files := by
          have h2 := congrArg (fun r : CResult String => r.2.files) heq
          dsimp at h2
          rw [← h2]
          split_ifs
          · rfl
          · apply generate_files
        split
        next e fs₂ heq2 =>
          have hf2 : fs₂.files = fs₁.files := by
            have h2 := congrArg (fun r : CResult Unit => r.2.files) heq2
            dsimp at h2
            rw [← h2, ensure_files]
          show fs₂.files.contains q = true
          rw [hf2, hf]; exact h
        next u fs₂ heq2 =>
          have hf2 : fs₂.files = fs₁.files := by
            have h2 := congrArg (fun r : CResult Unit => r.2.files) heq2
            dsimp at h2
            rw [← h2, ensure_files]
          split
          · show fs₂.files.contains q = true
            rw [hf2, hf]; exact h
          · show ((fs₂.writeFile op).files).contains q = true
            apply writeFile_mem
            rw [hf2, hf]; exact h

/-- convert_md_to_html never removes a regular file. -/
theorem convert_md_to_html_files_mono (i : String) (o : Option String) (fs : FS) (q : String)
    (h : fs.files.contains q = true) :
    ((MarkdownToHtmlConverter.convert_md_to_html i o fs).2).files.contains q = true := by
  unfold MarkdownToHtmlConverter.convert_md_to_html
  rw [handle_exception_snd]
  exact convertMdToHtmlBody_files_mono i o fs q h

/-- convert_html_to_pdf never removes a regular file. -/
theorem convert_html_to_pdf_files_mono (a r : Bool) (i : String) (o : Option String)
    (fs : FS) (q : String) (h : fs.files.contains q = true) :
    ((HtmlToPdfConverter.convert_html_to_pdf a r i o fs).2).files.contains q = true := by
  unfold HtmlToPdfConverter.convert_html_to_pdf
  rw [handle_exception_snd]
  exact convertHtmlToPdfBody_files_mono a r i o fs q h

/-- On a valid input with an explicit output path whose directory part is
nonempty, convert_md_to_html writes the output HTML file. -/
theorem convert_md_to_html_writes (i hp : String) (fs : FS)
    (hval : FileHandler.validate_file fs i MarkdownToHtmlConverter.SUPPORTED_INPUT_FORMATS
      = (true, ""))
    (hhp : hp ≠ "") (hhpdir : dirname hp ≠ "") :
    ((MarkdownToHtmlConverter.convert_md_to_html i (some hp) fs).2).files.contains hp
      = true := by
  unfold MarkdownToHtmlConverter.convert_md_to_html
  rw [handle_exception_snd]
  simp only [MarkdownToHtmlConverter.convertMdToHtmlBody, hval, truthy, hhp,
    ne_eq, not_false_eq_true, decide_True, if_true, Option.getD_some,
    FileHandler.ensure_directory_exists, hhpdir, if_false]
  exact writeFile_self _ hp

/-- With keep_html, a valid input and explicit pdf and html paths with
directory parts, the intermediate HTML file is on disk when the call
returns, whatever the downstream rendering outcome. -/
theorem convertMdToPdf_keep_html (render_ok : Bool) (fs : FS) (input op hp tmp : String)
    (hval : FileHandler.validate_file fs input MarkdownToPdfConverter.SUPPORTED_INPUT_FORMATS
      = (true, ""))
    (hop : op ≠ "") (hopdir : dirname op ≠ "")
    (hhp : hp ≠ "") (hhpdir : dirname hp ≠ "") :
    ((MarkdownToPdfConverter.convert_md_to_pdf true render_ok input (some op) true (some hp)
        tmp fs).2).files.contains hp = true := by
  unfold MarkdownToPdfConverter.convert_md_to_pdf
  rw [handle_exception_snd]
  simp only [MarkdownToPdfConverter.convertMdToPdfBody, hval, truthy, hop, hhp,
    Option.getD_some, ne_eq, not_false_eq_true, decide_True, if_true,
    eq_self_iff_true, not_true, if_false, Bool.true_and, Bool.and_true,
    Bool.false_and, Bool.and_false, Bool.not_true, Bool.false_eq_true,
    decide_False, FileHandler.ensure_directory_exists, hopdir]
  rw [handle_exception_snd]
  apply convert_md_to_html_writes input hp _ _ hhp hhpdir
  apply validate_file_preserve fs _ input _ _ hval
  intro q hq
  rw [addDir_files]
  exact hq

/-- Without keep_html the temporary HTML file is absent when the call
returns, on every execution path. -/
theorem convertMdToPdf_discard_tmp (avail render_ok : Bool) (inp : String)
    (out harg : Option String) (tmp : String) (fs : FS)
    (htmp : tmp ≠ "") (htmpfree : fs.files.contains tmp = false) :
    ((MarkdownToPdfConverter.convert_md_to_pdf avail render_ok inp out false harg
        tmp fs).2).files.contains tmp = false := by
  unfold MarkdownToPdfConverter.convert_md_to_pdf
  rw [handle_exception_snd]
  unfold MarkdownToPdfConverter.convertMdToPdfBody
  split
  · exact htmpfree
  · split
    · exact htmpfree
    · split
      next e fs₁ heq =>
        have hf : fs₁.files = fs.files := by
          have h2 := congrArg (fun r : CResult String => r.2.files) heq
          dsimp at h2
          rw [← h2]
          split_ifs
          · rfl
          · apply generate_files
        show fs₁.files.contains tmp = false
        rw [hf]; exact htmpfree
      next op' fs₁ heq =>
        have hf : fs₁.files = fs.files := by
          have h2 := congrArg (fun r : CResult String => r.2.files) heq
          dsimp at h2
          rw [← h2]
          split_ifs
          · rfl
          · apply generate_files
        dsimp only
        rcases hE : FileHandler.ensure_directory_exists (dirname op') fs₁ with ⟨rE, fs₂⟩
        have hf2 : fs₂.files = fs₁.files := by
          have h2 := congrArg (fun r : CResult Unit => r.2.files) hE
          dsimp at h2
          rw [← h2, ensure_files]
        cases rE with
        | error e =>
          show fs₂.files.contains tmp = false
          rw [hf2, hf]; exact htmpfree
        | ok u =>
          simp only [Bool.false_and, decide_False, if_false, Bool.false_eq_true,
            Bool.not_false, Bool.true_and, Bool.and_true, truthy, htmp, ne_eq,
            not_false_eq_true, decide_True, if_true, Option.getD_some]
          have h1 := writeFile_self fs₂ tmp
          have h2 := convert_md_to_html_files_mono inp (some tmp) (fs₂.writeFile tmp) tmp h1
          rw [handle_exception_snd]
          dsimp only
          simp only [FS.pathExists, h2, Bool.true_or, if_true]
          apply removeFile_not_mem

/-- C6: for the composed Markdown-to-PDF conversion on a valid input with
explicit output paths carrying a directory component: with keep_html=True the
intermediate HTML file exists on disk after the call returns, for both the
success and the failure outcome of the downstream PDF rendering; with
keep_html=False (the default) the temporary HTML file created during the call
is deleted before the call returns on every path, for every availability
flag, input and output arguments. -/
theorem C6_intermediate_html_lifecycle (render_ok : Bool) (fs : FS)
    (input op hp tmp : String)
    (hval : FileHandler.validate_file fs input MarkdownToPdfConverter.SUPPORTED_INPUT_FORMATS
      = (true, ""))
    (hop : op ≠ "") (hopdir : dirname op ≠ "")
    (hhp : hp ≠ "") (hhpdir : dirname hp ≠ "")
    (htmp : tmp ≠ "") (htmpfree : fs.files.contains tmp = false) :
    ((MarkdownToPdfConverter.convert_md_to_pdf true render_ok input (some op) true (some hp)
        tmp fs).2).files.contains hp = true ∧
    (∀ (avail : Bool) (inp : String) (out harg : Option String),
      ((MarkdownToPdfConverter.convert_md_to_pdf avail render_ok inp out false harg
          tmp fs).2).files.contains tmp = false) :=
  ⟨convertMdToPdf_keep_html render_ok fs input op hp tmp hval hop hopdir hhp hhpdir,
    fun avail inp out harg =>
      convertMdToPdf_discard_tmp avail render_ok inp out harg tmp fs htmp htmpfree⟩

/-- C6 witness: a concrete one-file filesystem exercising both the
keep_html=True and the keep_html=False conclusions. -/
theorem C6_witness :
    FileHandler.validate_file ⟨["docs/a.md"], []⟩ "docs/a.md"
      MarkdownToPdfConverter.SUPPORTED_INPUT_FORMATS = (true, "") ∧
    "docs/a.pdf" ≠ "" ∧ dirname "docs/a.pdf" ≠ "" ∧
    "docs/a.html" ≠ "" ∧ dirname "docs/a.html" ≠ "" ∧
    "/tmp/t1.html" ≠ "" ∧
    (⟨["docs/a.md"], []⟩ : FS).files.contains "/tmp/t1.html" = false ∧
    (((MarkdownToPdfConverter.convert_md_to_pdf true true "docs/a.md" (some "docs/a.pdf")
        true (some "docs/a.html") "/tmp/t1.html" ⟨["docs/a.md"], []⟩).2).files.contains
        "docs/a.html" = true ∧
      (∀ (avail : Bool) (inp : String) (out harg : Option String),
        ((MarkdownToPdfConverter.convert_md_to_pdf avail true inp out false harg
            "/tmp/t1.html" ⟨["docs/a.md"], []⟩).2).files.contains "/tmp/t1.html" = false)) :=
  ⟨by decide, by decide, by decide, by decide, by decide, by decide, by decide,
    C6_intermediate_html_lifecycle true ⟨["docs/a.md"], []⟩ "docs/a.md" "docs/a.pdf"
      "docs/a.html" "/tmp/t1.html" (by decide) (by decide) (by decide) (by decide)
      (by decide) (by decide) (by decide)⟩

end FileConverter
